import Mathlib

/-!
Verification development for the ZoneGuard analytics pipeline.

A shallow embedding of the pipeline's core components, translated from the
Python sources:
  * `backend/agents/forecast_agent.py`  (feature construction, train, predict)
  * `backend/agents/anomaly_agent.py`   (windowed outlier detection)
  * `backend/agents/reasoning_agent.py` (explanation with local fallback, memory)
  * `backend/agents/action_agent.py`    (rule-based action planning)
  * `backend/orchestrator/runner.py`    (staged pipeline with traces)
  * `evaluation/metrics.py`, `evaluation/business_metrics.py`

Modelling conventions: Python floats become `ℚ` (exact arithmetic; the only
irrational operation, `np.sqrt` in RMSE, becomes `Real.sqrt`); pandas
timestamps become hours-since-epoch naturals (`hour = ts % 24`,
`dayofweek = ts / 24 % 7`); opaque fitted estimators (XGBoost /
IsolationForest) become function parameters, since the claims quantify over
their behaviour; Python `dict` stores become `String → Option String`;
raised `ValueError`s become `Except String` with the source's message
strings; `round(x, n)` becomes integer rounding of `x * 10^n` (half-up at
exact ties, where Python uses half-to-even; no statement below depends on a
tie).
-/

attribute [local semireducible] Rat.mul Rat.add Rat.sub Rat.inv

namespace ZoneGuard

/-- One observation row of the per-zone history stream: columns
`zone_id, timestamp, demand, drivers, inventory, weather, availability`. -/
structure Obs where
  zone_id : String
  ts : Nat
  demand : ℚ
  drivers : ℚ
  inventory : ℚ
  weather : String
  availability : ℚ
deriving DecidableEq, Repr

/-- Weather encoding from `ForecastAgent._encode_weather`:
`mapping = clear 0, rain 1, storm 2, snow 3` with `fillna(0)`. -/
def encodeWeather (w : String) : ℚ :=
  if w = "clear" then 0
  else if w = "rain" then 1
  else if w = "storm" then 2
  else if w = "snow" then 3
  else 0

/-- A derived feature row (`ForecastAgent._build_features` output). -/
structure FeatureRow where
  ts : Nat
  hour : ℚ
  dayofweek : ℚ
  demand : ℚ
  drivers : ℚ
  inventory : ℚ
  weather_idx : ℚ
  availability_lag_1 : ℚ
  availability_roll_3 : ℚ
  availability : ℚ
deriving DecidableEq, Repr

/-- Sort observations by timestamp (`df.sort_values("timestamp")`). -/
def sortObs (l : List Obs) : List Obs :=
  l.insertionSort (fun a b => a.ts ≤ b.ts)

/-- Restrict history to one zone (`df[df["zone_id"] == zone_id]` and
`df.groupby("zone_id")` both reduce to this per-zone filter). -/
def zoneHistory (df : List Obs) (zone : String) : List Obs :=
  df.filter (fun o => o.zone_id = zone)

/-- Mean of the up-to-3 most recent availabilities
(`rolling(window=3, min_periods=1).mean()` evaluated at the previous row,
i.e. after `shift(1)`); `prevRev` lists earlier availabilities most recent
first. -/
def rollMean (prevRev : List ℚ) : ℚ :=
  (prevRev.take 3).sum / ((prevRev.take 3).length : ℚ)

/-- Assemble one feature row from an observation plus its lag/rolling
values. -/
def mkFeatureRow (o : Obs) (lag roll : ℚ) : FeatureRow :=
  { ts := o.ts
    hour := ((o.ts % 24 : ℕ) : ℚ)
    dayofweek := ((o.ts / 24 % 7 : ℕ) : ℚ)
    demand := o.demand
    drivers := o.drivers
    inventory := o.inventory
    weather_idx := encodeWeather o.weather
    availability_lag_1 := lag
    availability_roll_3 := roll
    availability := o.availability }

/-- Walk the time-ordered observations accumulating past availabilities
(most recent first).  The first row has no one-step lag (`shift(1)` gives
NaN there) and is removed by `dropna()`; every later row gets the previous
availability as lag and the mean of the up-to-3 previous availabilities as
rolling feature. -/
def buildRows : List ℚ → List Obs → List FeatureRow
  | _, [] => []
  | [], o :: rest => buildRows [o.availability] rest
  | p :: ps, o :: rest =>
      mkFeatureRow o p (rollMean (p :: ps)) :: buildRows (o.availability :: p :: ps) rest

/-- `ForecastAgent._build_features`: sort by timestamp, add clock/weather
encodings and the lag/rolling availability features, then drop the rows
with undefined lag (exactly the first row). -/
def buildFeatures (l : List Obs) : List FeatureRow :=
  buildRows [] (sortObs l)

/-- An opaque fitted regressor: maps a feature vector to a raw prediction.
The XGBoost/RandomForest artifact is not reimplemented; the claims hold for
every regressor. -/
def Model : Type := List ℚ → ℚ

/-- The feature columns, in the order of `ForecastAgent._feature_cols`. -/
def featVec (r : FeatureRow) : List ℚ :=
  [r.hour, r.dayofweek, r.demand, r.drivers, r.inventory, r.weather_idx,
   r.availability_lag_1, r.availability_roll_3]

/-- `ForecastAgent.train` restricted to one zone, starting from an empty
model map: the zone's model exists after training iff its feature-row count
reaches 30; `fit` stands for the opaque estimator fitting. -/
def trainedModel (fit : List FeatureRow → Model) (df : List Obs) (zone : String) :
    Option Model :=
  let feats := buildFeatures (zoneHistory df zone)
  if 30 ≤ feats.length then some (fit feats) else none

/-- `np.clip(x, 0.0, 1.0)`. -/
def clamp01 (q : ℚ) : ℚ := min (max q 0) 1

/-- Python `round(x, p)` on exact rationals: round `x * 10^p` to an integer
and scale back. -/
def roundDec (p : Nat) (q : ℚ) : ℚ := ((round (q * 10 ^ p) : ℤ) : ℚ) / 10 ^ p

/-- The running state of the recursive forecast loop: the advancing clock
`current_ts` and the mutated feature row `current_row`. -/
structure RecState where
  ts : Nat
  row : FeatureRow
deriving DecidableEq, Repr

/-- Recompute `hour` / `dayofweek` from the advanced timestamp
(loop steps 94-95 of `forecast_agent.py`). -/
def advanceClock (ts : Nat) (r : FeatureRow) : FeatureRow :=
  { r with hour := ((ts % 24 : ℕ) : ℚ), dayofweek := ((ts / 24 % 7 : ℕ) : ℚ) }

/-- One iteration of the recursive forecast loop: advance the clock one
hour, predict and clamp to `[0,1]`, feed the clamped value back as the lag
feature, blend it into the rolling feature as `(roll * 2 + yhat) / 3`, and
emit `(timestamp, round(yhat, 4))`. -/
def stepPredict (m : Model) (s : RecState) : RecState × (Nat × ℚ) :=
  let ts' := s.ts + 1
  let row1 := advanceClock ts' s.row
  let yhat := clamp01 (m (featVec row1))
  let row2 := { row1 with
    availability_lag_1 := yhat
    availability_roll_3 := (row1.availability_roll_3 * 2 + yhat) / 3 }
  (⟨ts', row2⟩, (ts', roundDec 4 yhat))

/-- The `for _ in range(horizon_hours)` loop of `ForecastAgent.predict`,
returning the emitted predictions. -/
def predictAux (m : Model) : Nat → RecState → List (Nat × ℚ)
  | 0, _ => []
  | n + 1, s => (stepPredict m s).2 :: predictAux m n (stepPredict m s).1

/-- The loop state after `n` iterations. -/
def stateAfter (m : Model) (s : RecState) : Nat → RecState
  | 0 => s
  | n + 1 => (stepPredict m (stateAfter m s n)).1

/-- Container mirroring `ForecastResult`; each prediction is a
`(timestamp, predicted_availability)` pair. -/
structure ForecastResult where
  zone_id : String
  horizon_hours : Nat
  predictions : List (Nat × ℚ)
deriving DecidableEq, Repr

/-- `ForecastAgent.predict`: require a trained model for the zone, rebuild
the zone's feature rows, seed the loop from the most recent row, and run
the recursive loop for `horizon_hours` steps. -/
def predict (models : String → Option Model) (df : List Obs) (zone : String)
    (horizon_hours : Nat) : Except String ForecastResult :=
  match models zone with
  | none => .error ("No model trained for " ++ zone)
  | some m =>
    let feats := buildFeatures (zoneHistory df zone)
    match feats.getLast? with
    | none => .error ("Insufficient feature history for " ++ zone)
    | some lastRow =>
        .ok ⟨zone, horizon_hours, predictAux m horizon_hours ⟨lastRow.ts, lastRow⟩⟩

/-- Calling `train` on a fresh agent and then `predict` for one zone. -/
def trainThenPredict (fit : List FeatureRow → Model) (df : List Obs) (zone : String)
    (horizon_hours : Nat) : Except String ForecastResult :=
  predict (trainedModel fit df) df zone horizon_hours

/-- Decidable equality of `Except` results, for evaluating concrete runs. -/
instance {ε α : Type} [DecidableEq ε] [DecidableEq α] : DecidableEq (Except ε α) :=
  fun a b =>
    match a, b with
    | .ok x, .ok y => if h : x = y then .isTrue (by rw [h]) else .isFalse (by simp [h])
    | .error x, .error y => if h : x = y then .isTrue (by rw [h]) else .isFalse (by simp [h])
    | .ok _, .error _ => .isFalse (by simp)
    | .error _, .ok _ => .isFalse (by simp)

/-! ## Anomaly agent (`anomaly_agent.py`) -/

/-- The raw-metric snapshot embedded in an anomaly event. -/
structure EventSnapshot where
  demand : ℚ
  drivers : ℚ
  inventory : ℚ
  availability : ℚ
  weather : String
deriving DecidableEq, Repr

/-- One detected anomaly event, as assembled in `AnomalyAgent.detect`. -/
structure AnomalyEvent where
  event_id : String
  ts : Nat
  zone_id : String
  score : ℚ
  snapshot : EventSnapshot
deriving DecidableEq, Repr

/-- `AnomalyResult` payload. -/
structure AnomalyResult where
  zone_id : String
  events : List AnomalyEvent
deriving DecidableEq, Repr

/-- `df.tail(n)`: the last `n` elements. -/
def tailN (n : Nat) (l : List α) : List α := l.drop (l.length - n)

/-- An opaque fitted outlier model (IsolationForest with contamination 0.07
and `random_state=42` in the source): per input row, the anomaly flag
(`fit_predict == -1`) and the anomaly score (`-score_samples`).  The fixed
seed makes the source model a deterministic function of the window, which
is exactly what this parameter is. -/
def OutlierModel : Type := List Obs → List (Bool × ℚ)

/-- Build one anomaly event from a window row and its raw score; the score
is rounded to 4 decimals here, before sorting, as in the source. -/
def mkEvent (o : Obs) (score : ℚ) : AnomalyEvent :=
  { event_id := o.zone_id ++ ":" ++ toString o.ts
    ts := o.ts
    zone_id := o.zone_id
    score := roundDec 4 score
    snapshot := ⟨o.demand, o.drivers, o.inventory, o.availability, o.weather⟩ }

/-- Descending-score order used by `events.sort(key=score, reverse=True)`. -/
def scoreGE (a b : AnomalyEvent) : Prop := b.score ≤ a.score

instance : DecidableRel scoreGE :=
  fun a b => inferInstanceAs (Decidable (b.score ≤ a.score))

instance : IsTotal AnomalyEvent scoreGE := ⟨fun a b => le_total b.score a.score⟩

instance : IsTrans AnomalyEvent scoreGE := ⟨fun _ _ _ h1 h2 => le_trans h2 h1⟩

/-- The window `detect` scores: the zone's most recent `lookback`
observations in time order. -/
def detectWindow (df : List Obs) (zone : String) (lookback : Nat) : List Obs :=
  tailN lookback (sortObs (zoneHistory df zone))

/-- `AnomalyAgent.detect`: error out below 20 rows, flag and score each row
with the outlier model, keep the flagged rows as events, and return them
sorted by descending score. -/
def detect (om : OutlierModel) (df : List Obs) (zone : String) (lookback : Nat) :
    Except String AnomalyResult :=
  let zdf := detectWindow df zone lookback
  if zdf.length < 20 then
    .error ("Insufficient records for anomaly detection in " ++ zone)
  else
    let flagged := (zdf.zip (om zdf)).filterMap
      (fun p => if p.2.1 then some (mkEvent p.1 p.2.2) else none)
    .ok ⟨zone, flagged.insertionSort scoreGE⟩

/-! ## Reasoning agent (`reasoning_agent.py`), in-process memory path
(`collection is None`). -/

/-- The in-process memory store `_memory_store : dict[str, str]`. -/
def Store : Type := String → Option String

/-- Python `dict` assignment `store[k] = v`. -/
def storeUpsert (s : Store) (k v : String) : Store :=
  fun k' => if k' = k then some v else s k'

/-- `_query_context` on the exact-key fallback path: the entry under the
event id, if any. -/
def queryContext (s : Store) (event_id : String) : List String :=
  match s event_id with
  | some doc => [doc]
  | none => []

/-- `_build_prompt`; the `json.dumps(event)` payload is abstracted to the
event identifier (no statement below depends on the prompt's contents). -/
def buildPrompt (event_id : String) (context : List String) : String :=
  let contextText :=
    if context.isEmpty then "No prior context available."
    else String.intercalate "\n" context
  "You are ZoneGuard root-cause analyst. Provide concise operational explanation and confidence (0-1)."
    ++ " Focus on demand-supply, weather, and inventory dynamics.\n"
    ++ "Event: " ++ event_id ++ "\n"
    ++ "Context: " ++ contextText ++ "\n"
    ++ "Output JSON with keys: root_cause, evidence, confidence, risks."

/-- Render a rational with two decimal places, the shape of Python's
`f"\x7bx:.2f\x7d"` (sign, integer part, exactly two fractional digits). -/
def fmt2 (q : ℚ) : String :=
  let c : ℤ := round (q * 100)
  let sign := if c < 0 then "-" else ""
  let a := c.natAbs
  sign ++ toString (a / 100) ++ "." ++ (if a % 100 < 10 then "0" else "") ++ toString (a % 100)

/-- The deterministic local fallback explanation assembled in the `except`
branch of `ReasoningAgent.reason`. -/
structure FallbackExplanation where
  root_cause : String
  evidence : List String
  confidence : ℚ
  risks : List String
deriving DecidableEq, Repr

/-- The fallback explanation for an event snapshot: pressure is
`demand / max(drivers, 1.0)` and confidence is
`round(min(0.9, 0.45 + pressure / 5), 2)`. -/
def fallbackExplanation (snap : EventSnapshot) : FallbackExplanation :=
  let pressure := snap.demand / max snap.drivers 1
  { root_cause := "Demand-driver imbalance with environmental disruption"
    evidence :=
      ["Demand/driver pressure=" ++ fmt2 pressure,
       "Inventory level=" ++ fmt2 snap.inventory,
       "Weather=" ++ snap.weather]
    confidence := roundDec 2 (min (9/10) (45/100 + pressure / 5))
    risks := ["Service-level breach", "Order delays"] }

/-- An explanation value: the raw external-service response, or the locally
built fallback (`json.dumps` of the fallback payload in the source). -/
inductive Explanation where
  | service (raw : String)
  | fallback (f : FallbackExplanation)
deriving DecidableEq, Repr

/-- The explanation's textual form (the fallback rendered as its JSON
serialization). -/
def FallbackExplanation.text (f : FallbackExplanation) : String :=
  "\x7b\"root_cause\": \"" ++ f.root_cause ++ "\", \"evidence\": ["
    ++ String.intercalate ", " (f.evidence.map (fun e => "\"" ++ e ++ "\""))
    ++ "], \"confidence\": " ++ fmt2 f.confidence ++ ", \"risks\": ["
    ++ String.intercalate ", " (f.risks.map (fun e => "\"" ++ e ++ "\"")) ++ "]\x7d"

/-- The textual explanation string returned to callers. -/
def Explanation.text : Explanation → String
  | .service raw => raw
  | .fallback f => f.text

/-- The dictionary returned by `ReasoningAgent.reason`. -/
structure ReasonResult where
  event_id : String
  prompt : String
  explanation : Explanation
deriving DecidableEq, Repr

/-- `ReasoningAgent.reason`: query memory context, build the prompt, try
the external call (`svc` is its outcome: a response string or any raised
exception), fall back locally on failure, write the explanation into
memory under the event id, and return.  The function is total: no service
failure is ever surfaced. -/
def reason (svc : Except String String) (store : Store) (event_id : String)
    (snap : EventSnapshot) : ReasonResult × Store :=
  let context := queryContext store event_id
  let prompt := buildPrompt event_id context
  let explanation : Explanation :=
    match svc with
    | .ok s => .service s
    | .error _ => .fallback (fallbackExplanation snap)
  let store' := storeUpsert store event_id
    ("event_id=" ++ event_id ++ "; explanation=" ++ explanation.text)
  (⟨event_id, prompt, explanation⟩, store')

/-- The composite feedback key `f"feedback:\x7bevent_id\x7d:\x7brating\x7d"`. -/
def fbKey (event_id : String) (rating : Int) : String :=
  "feedback:" ++ event_id ++ ":" ++ toString rating

/-- `ReasoningAgent.ingest_feedback` on the in-process memory path: store
the feedback document under the composite key. -/
def ingest_feedback (store : Store) (event_id correction : String) (rating : Int) : Store :=
  storeUpsert store (fbKey event_id rating)
    ("feedback for " ++ event_id ++ ": rating=" ++ toString rating ++ "; correction=" ++ correction)

/-! ## Action agent (`action_agent.py`) -/

/-- One recommended action. -/
structure ActionItem where
  action : String
  detail : String
  priority : String
deriving DecidableEq, Repr

/-- The dictionary returned by `ActionAgent.plan`. -/
structure ActionPlan where
  event_id : String
  recommended_actions : List ActionItem
  reasoning_reference : Explanation
deriving DecidableEq, Repr

/-- `ActionAgent.plan`: conditional high-priority actions from the
snapshot thresholds, then the two standing medium-priority actions. -/
def plan (event_id : String) (snap : EventSnapshot) (explanation : Explanation) : ActionPlan :=
  let a1 : List ActionItem :=
    if snap.drivers < snap.demand * (9/10) then
      [⟨"Rebalance drivers",
        "Shift drivers from neighboring zones within next 30 minutes.", "high"⟩]
    else []
  let a2 : List ActionItem :=
    if snap.inventory < snap.demand * (8/10) then
      [⟨"Expedite inventory transfer",
        "Move hot-selling inventory from closest micro-fulfillment center.", "high"⟩]
    else []
  { event_id := event_id
    recommended_actions := a1 ++ a2 ++
      [⟨"Enable surge controls",
        "Temporarily throttle low-priority orders and adjust promised ETA windows.", "medium"⟩,
       ⟨"Monitor zone stability",
        "Track availability every 15 minutes for the next 2 hours.", "medium"⟩]
    reasoning_reference := explanation }

/-! ## Pipeline orchestrator (`orchestrator/runner.py`) -/

/-- A value in a trace's `details` mapping (counts or strings). -/
inductive DetailVal where
  | n (v : Nat)
  | s (v : String)
deriving DecidableEq, Repr

/-- `StepTrace`: one orchestration step's record. -/
structure StepTrace where
  step : String
  status : String
  latency_ms : ℚ
  details : List (String × DetailVal)
deriving DecidableEq, Repr

/-- `PipelineOutput`: the assembled pipeline response. -/
structure PipelineOutput where
  zone_id : String
  generated_at : Nat
  traces : List StepTrace
  forecast : ForecastResult
  anomalies : AnomalyResult
  reasoning : Option ReasonResult
  actions : Option ActionPlan
deriving DecidableEq, Repr

/-- `PipelineOrchestrator.run`.  The orchestrator is generic over the
injected agents, so the reasoning and action stages are parameters: an
arbitrary `reasoner` (instantiated by `fun eid snap => (reason svc store
eid snap).1`) and an arbitrary `actor` (instantiated by `plan`).  The
forecast and anomaly stages run as two awaitless coroutines gathered in
that order, so their traces append in that order and a stage exception
propagates to the caller (modelled by `Except` bind).  Wall-clock latencies
of invoked stages are inputs (`fLat`, `aLat`, `rLat`, `acLat`), as is the
report timestamp `now`; the skipped branch hard-codes latency `0.0` as in
the source. -/
def runPipeline (fit : List FeatureRow → Model) (om : OutlierModel)
    (reasoner : String → EventSnapshot → ReasonResult)
    (actor : String → EventSnapshot → Explanation → ActionPlan)
    (df : List Obs) (zone : String) (horizon_hours lookback : Nat)
    (fLat aLat rLat acLat : ℚ) (now : Nat) :
    Except String PipelineOutput := do
  let forecastRes ← trainThenPredict fit df zone horizon_hours
  let anomalyRes ← detect om df zone lookback
  let fTrace : StepTrace :=
    ⟨"forecast", "ok", fLat, [("count", .n forecastRes.predictions.length)]⟩
  let aTrace : StepTrace :=
    ⟨"anomaly", "ok", aLat, [("events", .n anomalyRes.events.length)]⟩
  match anomalyRes.events with
  | event :: _ =>
    let reasonRes := reasoner event.event_id event.snapshot
    let rTrace : StepTrace :=
      ⟨"reason", "ok", rLat, [("event_id", .s reasonRes.event_id)]⟩
    let actionRes := actor event.event_id event.snapshot reasonRes.explanation
    let acTrace : StepTrace :=
      ⟨"action", "ok", acLat, [("actions", .n actionRes.recommended_actions.length)]⟩
    return ⟨zone, now, [fTrace, aTrace, rTrace, acTrace],
      forecastRes, anomalyRes, some reasonRes, some actionRes⟩
  | [] =>
    let rTrace : StepTrace := ⟨"reason", "skipped", 0, [("reason", .s "No anomaly events")]⟩
    let acTrace : StepTrace := ⟨"action", "skipped", 0, [("reason", .s "No anomaly events")]⟩
    return ⟨zone, now, [fTrace, aTrace, rTrace, acTrace],
      forecastRes, anomalyRes, none, none⟩

/-! ## Evaluation metrics (`evaluation/metrics.py`,
`evaluation/business_metrics.py`) -/

/-- `mape`: mean absolute percentage error with the denominator floored at
`1e-6` (`np.clip(np.abs(yt), 1e-6, None)`). -/
def mape (y_true y_pred : List ℚ) : ℚ :=
  let pairs := y_true.zip y_pred
  (pairs.map (fun p => |(p.1 - p.2) / max |p.1| (1 / 10 ^ 6)|)).sum / (pairs.length : ℚ)

/-- The mean squared error (the radicand of `rmse`). -/
def mse (y_true y_pred : List ℚ) : ℚ :=
  let pairs := y_true.zip y_pred
  (pairs.map (fun p => (p.1 - p.2) ^ 2)).sum / (pairs.length : ℚ)

/-- `rmse`: root mean squared error.  The square root is the one genuinely
irrational operation of the pipeline, hence the `Real`-valued definition;
everything under the root is the computable `mse`. -/
noncomputable def rmse (y_true y_pred : List ℚ) : ℝ :=
  Real.sqrt ((mse y_true y_pred : ℚ) : ℝ)

/-- `BusinessImpact` KPI payload. -/
structure BusinessImpact where
  incident_prevention_rate : ℚ
  estimated_mttr_reduction_minutes : ℚ
  action_acceptance_rate : ℚ
  estimated_ops_hours_saved : ℚ
deriving DecidableEq, Repr

/-- `estimate_impact` from `business_metrics.py`, with Python's int inputs
as `ℤ`. -/
def estimate_impact (anomalies_detected corrective_actions acknowledged_actions
    baseline_incidents : ℤ) : BusinessImpact :=
  let baseline : ℤ := if baseline_incidents ≤ 0 then 1 else baseline_incidents
  let ipr : ℚ := min 1 ((anomalies_detected : ℚ) / (baseline : ℚ))
  let aar : ℚ :=
    if corrective_actions = 0 then 0
    else min 1 ((acknowledged_actions : ℚ) / (corrective_actions : ℚ))
  { incident_prevention_rate := roundDec 4 ipr
    estimated_mttr_reduction_minutes := roundDec 2 (12 + 38 * aar)
    action_acceptance_rate := roundDec 4 aar
    estimated_ops_hours_saved :=
      roundDec 2 ((anomalies_detected : ℚ) * (35/100) + (acknowledged_actions : ℚ) * (22/100)) }

/-! ## Shared lemmas -/

lemma sortObs_length (l : List Obs) : (sortObs l).length = l.length :=
  (List.perm_insertionSort _ l).length_eq

lemma buildRows_length_cons (p : ℚ) (ps : List ℚ) (l : List Obs) :
    (buildRows (p :: ps) l).length = l.length := by
  induction l generalizing p ps with
  | nil => rfl
  | cons o rest ih => simp [buildRows, ih]

lemma buildRows_nil_length (l : List Obs) :
    (buildRows [] l).length = l.length - 1 := by
  cases l with
  | nil => rfl
  | cons o rest => simp [buildRows, buildRows_length_cons]

lemma buildFeatures_length (l : List Obs) :
    (buildFeatures l).length = l.length - 1 := by
  rw [buildFeatures, buildRows_nil_length, sortObs_length]

lemma buildRows_map_avail (p : ℚ) (ps : List ℚ) (l : List Obs) :
    (buildRows (p :: ps) l).map (fun r => r.availability)
      = l.map (fun o => o.availability) := by
  induction l generalizing p ps with
  | nil => rfl
  | cons o rest ih => simp [buildRows, mkFeatureRow, ih]

lemma roundQ_mono {x y : ℚ} (h : x ≤ y) : round x ≤ round y := by
  rw [round_eq, round_eq]
  exact Int.floor_le_floor (by linarith)

lemma roundDec_nonneg (p : Nat) {q : ℚ} (h : 0 ≤ q) : 0 ≤ roundDec p q := by
  rw [roundDec]
  apply div_nonneg _ (by positivity)
  have h0 : (0 : ℤ) ≤ round (q * 10 ^ p) := by
    have hx : ((0 : ℚ)) ≤ q * 10 ^ p := by positivity
    simpa using roundQ_mono hx
  exact_mod_cast h0

lemma roundDec_le_one (p : Nat) {q : ℚ} (h : q ≤ 1) : roundDec p q ≤ 1 := by
  rw [roundDec, div_le_one (by positivity)]
  have hx : q * 10 ^ p ≤ ((10 : ℚ) ^ p) := by
    have hp : (0 : ℚ) < 10 ^ p := by positivity
    nlinarith
  have h1 : round (q * 10 ^ p) ≤ round ((10 : ℚ) ^ p) := roundQ_mono hx
  have h2 : round ((10 : ℚ) ^ p) = (10 : ℤ) ^ p := by
    have : ((10 : ℚ) ^ p) = (((10 : ℤ) ^ p : ℤ) : ℚ) := by push_cast; ring
    rw [this, round_intCast]
  rw [h2] at h1
  exact_mod_cast h1

lemma clamp01_nonneg (q : ℚ) : 0 ≤ clamp01 q :=
  le_min (le_max_right q 0) zero_le_one

lemma clamp01_le_one (q : ℚ) : clamp01 q ≤ 1 := min_le_right _ _

lemma predictAux_length (m : Model) (n : Nat) (s : RecState) :
    (predictAux m n s).length = n := by
  induction n generalizing s with
  | zero => rfl
  | succ k ih => simp [predictAux, ih]

lemma predictAux_map_fst (m : Model) (n : Nat) (s : RecState) :
    (predictAux m n s).map Prod.fst = List.range' (s.ts + 1) n := by
  induction n generalizing s with
  | zero => rfl
  | succ k ih =>
      rw [predictAux, List.map_cons, ih]
      rfl

lemma predictAux_snd_bounds (m : Model) (n : Nat) (s : RecState) :
    ∀ p ∈ predictAux m n s, 0 ≤ p.2 ∧ p.2 ≤ 1 := by
  induction n generalizing s with
  | zero => intro p hp; simp [predictAux] at hp
  | succ k ih =>
      intro p hp
      rw [predictAux] at hp
      rcases List.mem_cons.mp hp with h | h
      · subst h
        exact ⟨roundDec_nonneg 4 (clamp01_nonneg _), roundDec_le_one 4 (clamp01_le_one _)⟩
      · exact ih _ p h

lemma stateAfter_shift (m : Model) (s : RecState) (n : Nat) :
    stateAfter m s (n + 1) = stateAfter m (stepPredict m s).1 n := by
  induction n with
  | zero => rfl
  | succ k ih => rw [stateAfter, ih, stateAfter]

lemma predictAux_concat (m : Model) (s : RecState) (n : Nat) :
    predictAux m (n + 1) s
      = predictAux m n s ++ [(stepPredict m (stateAfter m s n)).2] := by
  induction n generalizing s with
  | zero => rfl
  | succ k ih =>
      rw [predictAux, ih ((stepPredict m s).1), ← stateAfter_shift m s k,
        predictAux, List.cons_append]

lemma except_bind_error {ε α β : Type} (e : ε) (f : α → Except ε β) :
    (Except.error e >>= f) = Except.error e := rfl

lemma except_bind_ok {ε α β : Type} (a : α) (f : α → Except ε β) :
    (Except.ok (ε := ε) a >>= f) = f a := rfl

lemma fallback_text_ne_empty (f : FallbackExplanation) : f.text ≠ "" := by
  intro h
  have hl := congrArg String.length h
  rw [FallbackExplanation.text] at hl
  simp only [String.length_append] at hl
  have h16 : ("\x7b\"root_cause\": \"" : String).length = 16 := rfl
  have h0 : ("" : String).length = 0 := rfl
  omega

lemma mape_sum_self_zero (l : List ℚ) :
    ((l.zip l).map (fun p => |(p.1 - p.2) / max |p.1| (1 / 10 ^ 6)|)).sum = 0 := by
  induction l with
  | nil => rfl
  | cons a t ih =>
      simp only [List.zip_cons_cons, List.map_cons, List.sum_cons, sub_self, zero_div,
        abs_zero, zero_add]
      exact ih

lemma mse_sum_self_zero (l : List ℚ) :
    ((l.zip l).map (fun p => (p.1 - p.2) ^ 2)).sum = 0 := by
  induction l with
  | nil => rfl
  | cons a t ih => simp [ih]

lemma mape_self (l : List ℚ) : mape l l = 0 := by
  rw [mape]
  simp only [mape_sum_self_zero, zero_div]

lemma mse_self (l : List ℚ) : mse l l = 0 := by
  rw [mse]
  simp only [mse_sum_self_zero, zero_div]

/-! ## The claims -/

/-- C2: a detection window shorter than 20 rows yields the
insufficient-data error, and predicting for an untrained zone yields the
model-not-ready error; both are returned to the caller. -/
theorem detect_insufficient_and_predict_untrained :
    (∀ (om : OutlierModel) (df : List Obs) (zone : String) (lookback : Nat),
        (detectWindow df zone lookback).length < 20 →
        detect om df zone lookback
          = .error ("Insufficient records for anomaly detection in " ++ zone)) ∧
    (∀ (models : String → Option Model) (df : List Obs) (zone : String) (H : Nat),
        models zone = none →
        predict models df zone H = .error ("No model trained for " ++ zone)) := by
  constructor
  · intro om df zone lookback h
    rw [detect]
    simp [h]
  · intro models df zone H h
    rw [predict, h]

/-- A trivially silent outlier model, used to instantiate witnesses. -/
def omQuiet : OutlierModel := fun rows => rows.map (fun _ => (false, 0))

/-- Witness for C2 at concrete inputs: an empty history gives the
insufficient-data error, an empty model map gives the not-ready error. -/
theorem detect_insufficient_and_predict_untrained_witness :
    ((detectWindow [] "zone-1" 120).length < 20 ∧
      detect omQuiet [] "zone-1" 120
        = .error ("Insufficient records for anomaly detection in " ++ "zone-1")) ∧
    ((fun _ : String => (none : Option Model)) "zone-1" = none ∧
      predict (fun _ => none) [] "zone-1" 6
        = .error ("No model trained for " ++ "zone-1")) :=
  ⟨⟨by decide,
      detect_insufficient_and_predict_untrained.1 omQuiet [] "zone-1" 120 (by decide)⟩,
    ⟨rfl, detect_insufficient_and_predict_untrained.2 (fun _ => none) [] "zone-1" 6 rfl⟩⟩

/-- C6: when the external call fails with any exception, `reason` returns
the locally built fallback explanation — non-empty as a string, with
pressure `demand / max(drivers, 1)` and confidence
`round(min(0.9, 0.45 + pressure / 5), 2)` — and the failure is not
surfaced (`reason` is total and returns the explanation normally). -/
theorem reason_fallback_on_failure (err : String) (store : Store)
    (event_id : String) (snap : EventSnapshot) :
    (reason (.error err) store event_id snap).1.explanation
      = .fallback (fallbackExplanation snap) ∧
    (reason (.error err) store event_id snap).1.explanation.text ≠ "" ∧
    (fallbackExplanation snap).confidence
      = roundDec 2 (min (9/10) (45/100 + (snap.demand / max snap.drivers 1) / 5)) ∧
    (reason (.error err) store event_id snap).1.event_id = event_id := by
  refine ⟨rfl, ?_, rfl, rfl⟩
  exact fallback_text_ne_empty (fallbackExplanation snap)

/-- C7 counterexample: the claim's unrounded formula
`action_acceptance_rate = acknowledged / generated` fails, because the
code rounds the rate to 4 decimals before returning it. -/
theorem estimate_impact_acceptance_not_exact :
    (estimate_impact 1 3 1 1).action_acceptance_rate ≠ 1 / 3 := by decide

/-- C7 (amended): the estimator returns the claimed formulas after the
code's rounding (rates to 4 decimals, the derived heuristics to 2) with
the acceptance ratio clamped at 1, and the documented concrete instance
evaluates to exactly (1.0, 34.8, 0.6, 3.07). -/
theorem estimate_impact_formulas (a c k b : ℤ) (hb : 0 < b) :
    estimate_impact a c k b =
      { incident_prevention_rate := roundDec 4 (min 1 ((a : ℚ) / (b : ℚ)))
        estimated_mttr_reduction_minutes :=
          roundDec 2 (12 + 38 * (if c = 0 then 0 else min 1 ((k : ℚ) / (c : ℚ))))
        action_acceptance_rate := roundDec 4 (if c = 0 then 0 else min 1 ((k : ℚ) / (c : ℚ)))
        estimated_ops_hours_saved :=
          roundDec 2 ((a : ℚ) * (35/100) + (k : ℚ) * (22/100)) } ∧
    estimate_impact 5 10 6 2 = ⟨1, 348/10, 6/10, 307/100⟩ := by
  constructor
  · rw [estimate_impact]
    simp [not_le.mpr hb]
  · decide

/-- Witness for C7 at the documented inputs. -/
theorem estimate_impact_formulas_witness :
    (0 : ℤ) < 2 ∧ estimate_impact 5 10 6 2 = ⟨1, 348/10, 6/10, 307/100⟩ :=
  ⟨by decide, (estimate_impact_formulas 5 10 6 2 (by decide)).2⟩

/-- C8 counterexample: on the documented example the MAPE is 247/7560
(about 0.0327), which is not in the claimed range [0.025, 0.03]. -/
theorem mape_documented_example_exceeds_range :
    ¬ (mape [4/5, 7/10, 9/10] [39/50, 18/25, 43/50] ≤ 3/100) := by decide

/-- C8 (amended): MAPE and RMSE are 0 when predictions equal the true
values; on the documented example `y_true=[0.8,0.7,0.9]`,
`y_pred=[0.78,0.72,0.86]` the MAPE is 247/7560 ≈ 0.0327 (between 0.03 and
0.035) and the RMSE is √0.0008 ≈ 0.0283 (between 0.028 and 0.0285). -/
theorem replay_metrics_values :
    (∀ l : List ℚ, l ≠ [] → mape l l = 0 ∧ rmse l l = 0) ∧
    (mape [4/5, 7/10, 9/10] [39/50, 18/25, 43/50] = 247/7560 ∧
      3/100 ≤ mape [4/5, 7/10, 9/10] [39/50, 18/25, 43/50] ∧
      mape [4/5, 7/10, 9/10] [39/50, 18/25, 43/50] ≤ 35/1000) ∧
    ((28/1000 : ℝ) ≤ rmse [4/5, 7/10, 9/10] [39/50, 18/25, 43/50] ∧
      rmse [4/5, 7/10, 9/10] [39/50, 18/25, 43/50] ≤ (285/10000 : ℝ)) := by
  refine ⟨?_, ⟨by decide, by decide, by decide⟩, ?_⟩
  · intro l _
    refine ⟨mape_self l, ?_⟩
    rw [rmse, mse_self l]
    simp
  · have hmse : mse [4/5, 7/10, 9/10] [39/50, 18/25, 43/50] = 1/1250 := by decide
    rw [rmse, hmse]
    have hcast : (((1 : ℚ)/1250 : ℚ) : ℝ) = 1/1250 := by push_cast; ring
    rw [hcast]
    constructor
    · have h : (28/1000 : ℝ) = Real.sqrt ((28/1000) ^ 2) :=
        (Real.sqrt_sq (by norm_num)).symm
      rw [h]
      apply Real.sqrt_le_sqrt
      norm_num
    · have h : (285/10000 : ℝ) = Real.sqrt ((285/10000) ^ 2) :=
        (Real.sqrt_sq (by norm_num)).symm
      rw [h]
      apply Real.sqrt_le_sqrt
      norm_num

/-- Witness for C8 on a concrete non-empty list. -/
theorem replay_metrics_values_witness :
    ([4/5] : List ℚ) ≠ [] ∧ (mape [4/5] [4/5] = 0 ∧ rmse [4/5] [4/5] = 0) :=
  ⟨by decide, replay_metrics_values.1 [4/5] (by decide)⟩

/-- C9: `ingest_feedback` writes its document under the composite key
`feedback:<event_id>:<rating>`, which differs from `event_id`, so the
entry stored under `event_id` is unchanged. -/
theorem ingest_feedback_preserves_original (store : Store)
    (event_id correction : String) (rating : Int) :
    ingest_feedback store event_id correction rating event_id = store event_id ∧
    ingest_feedback store event_id correction rating (fbKey event_id rating)
      = some ("feedback for " ++ event_id ++ ": rating=" ++ toString rating
          ++ "; correction=" ++ correction) ∧
    fbKey event_id rating ≠ event_id := by
  have hne : fbKey event_id rating ≠ event_id := by
    intro h
    have hl := congrArg String.length h
    have h9 : ("feedback:" : String).length = 9 := rfl
    have h1 : (":" : String).length = 1 := rfl
    rw [fbKey, String.length_append, String.length_append, String.length_append,
      h9, h1] at hl
    omega
  refine ⟨?_, ?_, hne⟩
  · rw [ingest_feedback, storeUpsert]
    simp [hne.symm]
  · rw [ingest_feedback, storeUpsert]
    simp

/-- C4: a successful detection returns events sorted by descending score,
and every returned event is built (via `mkEvent`) from a window row whose
outlier flag is set — unflagged rows never produce events. -/
theorem detect_sorted_and_flagged (om : OutlierModel) (df : List Obs) (zone : String)
    (lookback : Nat) (res : AnomalyResult)
    (hok : detect om df zone lookback = .ok res) :
    List.Sorted scoreGE res.events ∧
    ∀ e ∈ res.events,
      ∃ p ∈ (detectWindow df zone lookback).zip (om (detectWindow df zone lookback)),
        p.2.1 = true ∧ e = mkEvent p.1 p.2.2 := by
  rw [detect] at hok
  by_cases h : (detectWindow df zone lookback).length < 20
  · rw [if_pos h] at hok
    exact absurd hok (by simp)
  · rw [if_neg h] at hok
    injection hok with h2
    subst h2
    constructor
    · exact List.sorted_insertionSort scoreGE _
    · intro e he
      have he' : e ∈ ((detectWindow df zone lookback).zip
          (om (detectWindow df zone lookback))).filterMap
          (fun p => if p.2.1 then some (mkEvent p.1 p.2.2) else none) :=
        (List.perm_insertionSort scoreGE _).mem_iff.mp he
      obtain ⟨p, hp, hpe⟩ := List.mem_filterMap.mp he'
      by_cases hflag : p.2.1 = true
      · rw [if_pos hflag] at hpe
        exact ⟨p, hp, hflag, (Option.some.inj hpe).symm⟩
      · rw [if_neg hflag] at hpe
        exact absurd hpe (by simp)

/-- A 20-row single-zone history for the anomaly witnesses. -/
def histB : List Obs := (List.range 20).map (fun i => ⟨"z", i, 1, 2, 3, "rain", 1/2⟩)

/-- An outlier model flagging exactly the row with timestamp 5, with the
timestamp as score. -/
def omFlagFive : OutlierModel := fun rows => rows.map (fun o => (decide (o.ts = 5), (o.ts : ℚ)))

/-- The detection result on `histB` under `omFlagFive`. -/
def resB : AnomalyResult := ⟨"z", [⟨"z:5", 5, "z", 5, ⟨1, 2, 3, 1/2, "rain"⟩⟩]⟩

/-- Witness for C4: a concrete successful detection. -/
theorem detect_sorted_and_flagged_witness :
    detect omFlagFive histB "z" 120 = .ok resB ∧
    (List.Sorted scoreGE resB.events ∧
      ∀ e ∈ resB.events,
        ∃ p ∈ (detectWindow histB "z" 120).zip (omFlagFive (detectWindow histB "z" 120)),
          p.2.1 = true ∧ e = mkEvent p.1 p.2.2) :=
  ⟨by decide, detect_sorted_and_flagged omFlagFive histB "z" 120 resB (by decide)⟩

/-- C5: at every iteration of the recursive forecast loop, the raw model
output is clamped to [0,1], the clamped prediction becomes the next
state's one-step lag feature, the rolling feature becomes exactly
`(previous_rolling * 2 + clamped) / 3`, and the emitted prediction is the
clamped value rounded to 4 decimals at the advanced timestamp. -/
theorem recursive_forecast_step (m : Model) (s0 : RecState) (n : Nat) :
    (stateAfter m s0 (n + 1)).row.availability_lag_1
      = clamp01 (m (featVec (advanceClock ((stateAfter m s0 n).ts + 1)
          (stateAfter m s0 n).row))) ∧
    (stateAfter m s0 (n + 1)).row.availability_roll_3
      = ((stateAfter m s0 n).row.availability_roll_3 * 2
          + clamp01 (m (featVec (advanceClock ((stateAfter m s0 n).ts + 1)
              (stateAfter m s0 n).row)))) / 3 ∧
    0 ≤ (stateAfter m s0 (n + 1)).row.availability_lag_1 ∧
    (stateAfter m s0 (n + 1)).row.availability_lag_1 ≤ 1 ∧
    (predictAux m (n + 1) s0).getLast?
      = some ((stateAfter m s0 n).ts + 1,
          roundDec 4 (clamp01 (m (featVec (advanceClock ((stateAfter m s0 n).ts + 1)
              (stateAfter m s0 n).row))))) := by
  refine ⟨rfl, rfl, ?_, ?_, ?_⟩
  · exact clamp01_nonneg _
  · exact clamp01_le_one _
  · rw [predictAux_concat, List.getLast?_concat]
    rfl

/-- C1: whenever a zone's history yields at least 30 feature rows,
training then predicting with horizon `H` succeeds and returns exactly `H`
predictions, each in [0,1], at consecutive hourly timestamps
`t0+1, …, t0+H`. -/
theorem train_predict_horizon (fit : List FeatureRow → Model) (df : List Obs)
    (zone : String) (H : Nat)
    (h30 : 30 ≤ (buildFeatures (zoneHistory df zone)).length) :
    ∃ r : ForecastResult, trainThenPredict fit df zone H = .ok r ∧
      r.predictions.length = H ∧
      (∀ p ∈ r.predictions, 0 ≤ p.2 ∧ p.2 ≤ 1) ∧
      ∃ t0 : Nat, r.predictions.map Prod.fst = List.range' (t0 + 1) H := by
  have hne : buildFeatures (zoneHistory df zone) ≠ [] := by
    intro hnil
    rw [hnil] at h30
    simp at h30
  obtain ⟨lastRow, hlast⟩ := Option.isSome_iff_exists.mp (List.getLast?_isSome.mpr hne)
  have hm : trainedModel fit df zone = some (fit (buildFeatures (zoneHistory df zone))) := by
    rw [trainedModel]
    simp [h30]
  refine ⟨⟨zone, H, predictAux (fit (buildFeatures (zoneHistory df zone))) H
      ⟨lastRow.ts, lastRow⟩⟩, ?_, predictAux_length _ _ _, predictAux_snd_bounds _ _ _,
    ⟨lastRow.ts, predictAux_map_fst _ _ _⟩⟩
  simp only [trainThenPredict, predict, hm, hlast]

/-- A 31-row single-zone history, enough to train. -/
def histTrain : List Obs := (List.range 31).map (fun i => ⟨"z", i, 1, 1, 1, "clear", 1/2⟩)

/-- A constant regressor standing in for the opaque fitted model. -/
def fitConst : List FeatureRow → Model := fun _ => fun _ => 1/3

/-- Witness for C1: the 31-observation history yields 30 feature rows and a
6-step forecast of the required shape. -/
theorem train_predict_horizon_witness :
    30 ≤ (buildFeatures (zoneHistory histTrain "z")).length ∧
    ∃ r : ForecastResult, trainThenPredict fitConst histTrain "z" 6 = .ok r ∧
      r.predictions.length = 6 ∧
      (∀ p ∈ r.predictions, 0 ≤ p.2 ∧ p.2 ≤ 1) ∧
      ∃ t0 : Nat, r.predictions.map Prod.fst = List.range' (t0 + 1) 6 :=
  ⟨by decide, train_predict_horizon fitConst histTrain "z" 6 (by decide)⟩

/-- C10: feature construction drops exactly one row per zone — the first
observation, whose lag is undefined — so the feature count is the
observation count minus one, a zone is trained iff it has at least 31
observations, the feature rows' availabilities are exactly the sorted
observations' availabilities without the first, and the "3-period" rolling
feature of the first two feature rows is a 1-sample resp. 2-sample mean. -/
theorem feature_construction_drop_one :
    (∀ l : List Obs, (buildFeatures l).length = l.length - 1) ∧
    (∀ (fit : List FeatureRow → Model) (df : List Obs) (zone : String),
        (trainedModel fit df zone).isSome ↔ 31 ≤ (zoneHistory df zone).length) ∧
    (∀ l : List Obs,
        (buildFeatures l).map (fun r => r.availability)
          = ((sortObs l).map (fun o => o.availability)).tail) ∧
    (∀ (l : List Obs) (a b c : Obs) (rest : List Obs),
        sortObs l = a :: b :: c :: rest →
        ((buildFeatures l).map (fun r => r.availability_roll_3)).take 2
          = [a.availability, (a.availability + b.availability) / 2]) := by
  refine ⟨buildFeatures_length, ?_, ?_, ?_⟩
  · intro fit df zone
    rw [trainedModel]
    by_cases h : 30 ≤ (buildFeatures (zoneHistory df zone)).length
    · rw [buildFeatures_length] at h
      simp only [buildFeatures_length]
      simp [h]
      omega
    · rw [buildFeatures_length] at h
      simp only [buildFeatures_length]
      simp [h]
      omega
  · intro l
    rw [buildFeatures]
    cases hs : sortObs l with
    | nil => rfl
    | cons o rest => simp [buildRows, buildRows_map_avail]
  · intro l a b c rest h
    rw [buildFeatures, h]
    simp [buildRows, mkFeatureRow, rollMean]
    ring

/-- A 3-row history with distinct availabilities for the C10 witness. -/
def histRoll : List Obs :=
  [⟨"z", 0, 1, 1, 1, "clear", 2/5⟩, ⟨"z", 1, 1, 1, 1, "rain", 3/5⟩,
   ⟨"z", 2, 1, 1, 1, "snow", 4/5⟩]

/-- Witness for C10: the rolling feature of the first two feature rows on a
concrete 3-row history. -/
theorem feature_construction_drop_one_witness :
    sortObs histRoll
      = ([⟨"z", 0, 1, 1, 1, "clear", 2/5⟩, ⟨"z", 1, 1, 1, 1, "rain", 3/5⟩,
          ⟨"z", 2, 1, 1, 1, "snow", 4/5⟩] : List Obs) ∧
    ((buildFeatures histRoll).map (fun r => r.availability_roll_3)).take 2
      = [(2 : ℚ)/5, ((2 : ℚ)/5 + 3/5) / 2] :=
  ⟨by decide,
    feature_construction_drop_one.2.2.2 histRoll ⟨"z", 0, 1, 1, 1, "clear", 2/5⟩
      ⟨"z", 1, 1, 1, 1, "rain", 3/5⟩ ⟨"z", 2, 1, 1, 1, "snow", 4/5⟩ [] (by decide)⟩

/-- C3: if the anomaly stage returns zero events, the pipeline output is
independent of the reasoning and action agents and their latencies (they
are never invoked), the reason and action traces are recorded as
"skipped" with latency 0, and the reasoning/actions payloads are null. -/
theorem orchestrator_skip_rule (fit : List FeatureRow → Model) (om : OutlierModel)
    (r1 r2 : String → EventSnapshot → ReasonResult)
    (a1 a2 : String → EventSnapshot → Explanation → ActionPlan)
    (df : List Obs) (zone : String) (H lookback : Nat)
    (fLat aLat rLat rLat' acLat acLat' : ℚ) (now : Nat)
    (hA : detect om df zone lookback = .ok ⟨zone, []⟩) :
    runPipeline fit om r1 a1 df zone H lookback fLat aLat rLat acLat now
      = runPipeline fit om r2 a2 df zone H lookback fLat aLat rLat' acLat' now ∧
    ∀ out, runPipeline fit om r1 a1 df zone H lookback fLat aLat rLat acLat now = .ok out →
      out.traces.drop 2
        = [⟨"reason", "skipped", 0, [("reason", .s "No anomaly events")]⟩,
           ⟨"action", "skipped", 0, [("reason", .s "No anomaly events")]⟩] ∧
      out.reasoning = none ∧ out.actions = none := by
  cases hF : trainThenPredict fit df zone H with
  | error e =>
      constructor
      · simp [runPipeline, hF, except_bind_error]
      · intro out hout
        simp [runPipeline, hF, except_bind_error] at hout
  | ok f =>
      constructor
      · simp [runPipeline, hF, hA, except_bind_ok]
      · intro out hout
        simp [runPipeline, hF, hA, except_bind_ok] at hout
        rw [← hout]
        exact ⟨rfl, rfl, rfl⟩

/-- A reasoner whose external call fails (exercises the local fallback). -/
def reasonerA : String → EventSnapshot → ReasonResult :=
  fun eid snap => (reason (.error "connection refused") (fun _ => none) eid snap).1

/-- A reasoner whose external call succeeds with a fixed response. -/
def reasonerB : String → EventSnapshot → ReasonResult :=
  fun eid snap => (reason (.ok "all clear") (fun _ => none) eid snap).1

/-- Witness for C3: on a zero-event run, two pipelines with different
reasoning agents and latencies coincide and record the skipped traces. -/
theorem orchestrator_skip_rule_witness :
    detect omQuiet histTrain "z" 120 = .ok ⟨"z", []⟩ ∧
    (runPipeline fitConst omQuiet reasonerA plan histTrain "z" 2 120 5 7 11 13 987
        = runPipeline fitConst omQuiet reasonerB plan histTrain "z" 2 120 5 7 17 19 987 ∧
      ∀ out,
        runPipeline fitConst omQuiet reasonerA plan histTrain "z" 2 120 5 7 11 13 987
          = .ok out →
        out.traces.drop 2
          = [⟨"reason", "skipped", 0, [("reason", .s "No anomaly events")]⟩,
             ⟨"action", "skipped", 0, [("reason", .s "No anomaly events")]⟩] ∧
        out.reasoning = none ∧ out.actions = none) :=
  ⟨by decide,
    orchestrator_skip_rule fitConst omQuiet reasonerA reasonerB plan plan histTrain "z" 2 120
      5 7 11 17 13 19 987 (by decide)⟩

end ZoneGuard
